import Mathlib

/-!
Verification development for the `soil` agent-based simulation engine.

The repository ships two Python files: `models/BassModel/BassModel.py`
(a concrete diffusion behaviour) and `tests/test_main.py` (the engine's
test surface).  The engine itself (`simulation`, `environment`, `agents`,
`utils`) is not part of the sources, so those components are modelled
from the specification; every such definition carries a doc comment
starting with `Modelled from the spec:`.  `BassModel.py` is embedded
directly from its source.
-/

namespace Soil

/-- A network topology: a list of node identifiers together with a
Boolean adjacency relation.  Matches the graph consumed by the engine
(nodes with identifiers, edges); agents are keyed by node identifier. -/
structure Net where
  nodes : List Nat
  adj : Nat → Nat → Bool
deriving Inhabited

/-- Number of nodes of the topology (Python `len(G)`). -/
def netLen (g : Net) : Nat := g.nodes.length

/-- Degree of node `i`: how many nodes of the topology are adjacent to it. -/
def degree (g : Net) (i : Nat) : Nat :=
  (g.nodes.filter (fun j => g.adj i j)).length

/-- The slice of the environment that `BassModel` reads:
`environment.innovation_prob`, `environment.imitation_prob` and the
clock `env.now` (`BassModel.__init__` copies the two probabilities onto
the agent, `behaviour` compares random draws against them). -/
structure BassEnv where
  innovation_prob : ℚ
  imitation_prob : ℚ
  now : Nat

/-- The mutable world visible to a `BassModel` agent: the shared
topology, every agent's `state` and `attrs` dictionaries (open string
maps, as in Python), and the module-level global
`sentimentCorrelationNodeArray`, indexed by agent id and tick. -/
structure BassWorld where
  net : Net
  states : Nat → String → ℤ
  attrs : Nat → String → ℤ
  sentiment : Nat → Nat → ℤ

/-- Write key `k` of agent `i`'s dictionary (Python `d[k] = v` on a
per-agent mapping). -/
def updAt (f : Nat → String → ℤ) (i : Nat) (k : String) (v : ℤ) :
    Nat → String → ℤ :=
  Function.update f i (Function.update (f i) k v)

/-- `BassModel.__init__`: writes
`sentimentCorrelationNodeArray[self.id][self.env.now] = 0` and, through
`super().__init__` (BaseBehaviour, not in the sources — modelled from
the spec: the base constructor installs the given initial state as the
agent's own `state` and touches nothing else), sets agent `i`'s state to
`init`.  The two probability fields it copies are agent-local
configuration, carried here by `BassEnv`. -/
def bassInit (e : BassEnv) (i : Nat) (init : String → ℤ) (w : BassWorld) :
    BassWorld :=
  { w with
    states := Function.update w.states i init
    sentiment := Function.update w.sentiment i
      (Function.update (w.sentiment i) e.now 0) }

/-- Number of neighbours of `i` whose `state['id']` equals `sid`:
`len(self.get_neighboring_agents(state_id=sid))`. -/
def numNeighborsWithId (w : BassWorld) (i : Nat) (sid : ℤ) : Nat :=
  (w.net.nodes.filter (fun j => w.net.adj i j && (w.states j "id" == sid))).length

/-- `BassModel.behaviour`, translated line by line.  `r1` is the first
`random.random()` draw (innovation check); `r2` is the second draw,
consulted only on the imitation path.  Returns the updated world
together with two flags recording which of the two `self.state['id'] = 1`
assignments executed: `(world, innovationSet, imitationSet)`. -/
def bassBehaviourE (e : BassEnv) (i : Nat) (r1 r2 : ℚ) (w : BassWorld) :
    BassWorld × Bool × Bool :=
  if r1 < e.innovation_prob then
    -- Outside effects
    if w.states i "id" = 0 then
      let w1 := { w with
        states := updAt w.states i "id" 1
        sentiment := Function.update w.sentiment i
          (Function.update (w.sentiment i) e.now 1) }
      ({ w1 with attrs := updAt w1.attrs i "status" (w1.states i "id") },
        true, false)
    else
      ({ w with attrs := updAt w.attrs i "status" (w.states i "id") },
        false, false)
  else
    -- Imitation effects
    if w.states i "id" = 0 then
      if r2 < e.imitation_prob * (numNeighborsWithId w i 1 : ℚ) then
        let w1 := { w with
          states := updAt w.states i "id" 1
          sentiment := Function.update w.sentiment i
            (Function.update (w.sentiment i) e.now 1) }
        ({ w1 with attrs := updAt w1.attrs i "status" (w1.states i "id") },
          false, true)
      else
        ({ w with attrs := updAt w.attrs i "status" (w.states i "id") },
          false, false)
    else
      (w, false, false)

/-- `BassModel.behaviour` as a plain world transformer (the flag-free
projection of `bassBehaviourE`). -/
def bassBehaviour (e : BassEnv) (i : Nat) (r1 r2 : ℚ) (w : BassWorld) :
    BassWorld :=
  (bassBehaviourE e i r1 r2 w).1

/-- `BassModel.step`: calls `behaviour()` and then `super().step(now)`
(BaseBehaviour.step, not in the sources — modelled from the spec: the
base step only finalises the agent's own state/attrs for recording by
the environment, mutating nothing in the shared world). -/
def bassStep (e : BassEnv) (i : Nat) (r1 r2 : ℚ) (w : BassWorld) :
    BassWorld :=
  bassBehaviour e i r1 r2 w

/-- A concrete two-node, one-edge world (the shape of `test.gexf`):
every `state`/`attrs` key starts at `0`, and the global sentiment array
is pre-filled with `5` so that writes to it are observable. -/
def w0 : BassWorld where
  net :=
    { nodes := [0, 1]
      adj := fun i j => (i == 0 && j == 1) || (i == 1 && j == 0) }
  states := fun _ _ => 0
  attrs := fun _ _ => 0
  sentiment := fun _ _ => 5

/-- `w0` with agent 0 already adopted (`state['id'] = 1`). -/
def w1 : BassWorld :=
  { w0 with states := fun _ k => if k = "id" then 1 else 0 }

/-- A concrete environment with both probabilities `1` at tick 0 (so a
draw of `0` always succeeds). -/
def e0 : BassEnv where
  innovation_prob := 1
  imitation_prob := 1
  now := 0

/-- Entity identifier of a history record: an agent id, or the sentinel
for environment-level attributes (`'env'`). -/
inductive EntityId where
  | env : EntityId
  | agent : Nat → EntityId
deriving DecidableEq, Repr

/-- A value recorded in the history, tagged by semantic kind
(the `value_type` strings `"int"` / `"str"` of `history_to_tuples`). -/
inductive Value where
  | int : ℤ → Value
  | str : String → Value
deriving DecidableEq, Repr

/-- One history entry, conceptually
`(entity_id, tick, attribute, value)`. -/
structure HRecord (α : Type) where
  entity : EntityId
  tick : Nat
  attr : String
  value : α
deriving DecidableEq, Repr

/-- Modelled from the spec: the History Store (kept by
`environment.SoilEnvironment`, not in the sources) is an append-only
record list. -/
abbrev History (α : Type) : Type := List (HRecord α)

/-- Modelled from the spec: `record` appends a new entry; nothing is
ever removed or edited in place. -/
def record {α : Type} (h : History α) (r : HRecord α) : History α :=
  h ++ [r]

/-- Does record `r` carry the fully specified key `(e, t, k)`? -/
def matchesKey {α : Type} (e : EntityId) (t : Nat) (k : String)
    (r : HRecord α) : Bool :=
  decide (r.entity = e) && decide (r.tick = t) && decide (r.attr = k)

/-- Modelled from the spec: a fully specified (no wildcard) query — the
value of the latest entry for the `(entity, tick, attribute)` triple,
`none` ("not found") when the triple was never recorded. -/
def pointQuery {α : Type} (h : History α) (e : EntityId) (t : Nat)
    (k : String) : Option α :=
  ((h.filter (matchesKey e t k)).getLast?).map (fun r => r.value)

/-- An attribute position as supplied by a caller: a proper string
name, or a value of an invalid type (Python: a non-string attribute
name), which the query surface must reject. -/
inductive AttrKey where
  | name : String → AttrKey
  | invalid : AttrKey
deriving DecidableEq

/-- Modelled from the spec: the error a malformed query fails fast
with. -/
inductive QueryError where
  | malformedAttr : QueryError
deriving DecidableEq

/-- Modelled from the spec: the checked query surface — a malformed
attribute name fails fast with an error, while a well-formed query over
a never-recorded triple returns `none` ("not found"), not an error. -/
def queryChecked {α : Type} (h : History α) (e : EntityId) (t : Nat) :
    AttrKey → Except QueryError (Option α)
  | .invalid => .error .malformedAttr
  | .name k => .ok (pointQuery h e t k)

/-- Wildcard on the tick position with entity and attribute fixed: the
ordered sequence of `(tick, value)` pairs recorded for that pair. -/
def queryTicks {α : Type} (h : History α) (e : EntityId) (k : String) :
    List (Nat × α) :=
  (h.filter (fun r => decide (r.entity = e) && decide (r.attr = k))).map
    (fun r => (r.tick, r.value))

/-- Wildcard on both tick and attribute (Python `agent[None, None]`):
one entry per distinct recorded tick for the entity (each entry being
that tick's attribute snapshot); this returns the list of those ticks,
whose length is the number of entries. -/
def queryAllTicks {α : Type} (h : History α) (e : EntityId) : List Nat :=
  ((h.filter (fun r => decide (r.entity = e))).map (fun r => r.tick)).dedup

/-- Agent `state` as an open string-keyed mapping (a Python dict). -/
abbrev AgState : Type := String → ℤ

/-- A behaviour's `step` under the synchronous semantics of the spec:
it sees the topology and every agent's state as of the start of the
tick and produces this agent's next state. -/
abbrev Behavior : Type := Net → (Nat → AgState) → Nat → AgState

/-- Modelled from the spec: one tick of the Environment — every agent
of the topology steps exactly once, each reading the start-of-tick
states; nodes outside the population are untouched. -/
def envStep (net : Net) (beh : Behavior) (s : Nat → AgState) :
    Nat → AgState :=
  fun i => if i ∈ net.nodes then beh net s i else s i

/-- Modelled from the spec: the population's states after `t` ticks
(tick 0 is the configured initial state). -/
def envStates (net : Net) (beh : Behavior) (init : Nat → AgState) :
    Nat → Nat → AgState
  | 0 => init
  | t + 1 => envStep net beh (envStates net beh init t)

/-- Modelled from the spec: the records committed for tick `t` — one
entry per agent of the topology and per recorded attribute key, holding
that agent's value at tick `t`. -/
def snapshotRecords (keys : List String) (t : Nat) (s : Nat → AgState)
    (nodes : List Nat) : History ℤ :=
  nodes.flatMap (fun i => keys.map (fun k => ⟨.agent i, t, k, s i k⟩))

/-- Modelled from the spec: the history committed by an Environment run
to `max_time = T`: the tick-0 initial values followed by one snapshot
per subsequent tick. -/
def runHistory (net : Net) (beh : Behavior) (init : Nat → AgState)
    (keys : List String) : Nat → History ℤ
  | 0 => snapshotRecords keys 0 init net.nodes
  | T + 1 => runHistory net beh init keys T ++
      snapshotRecords keys (T + 1) (envStates net beh init (T + 1)) net.nodes

/-- Modelled from the spec: `CounterModel` — a counter-style behaviour
whose `step` sets `state['neighbors']` to the agent's degree at the
tick of query. -/
def counterBeh : Behavior := fun net s i =>
  Function.update (s i) "neighbors" (degree net i : ℤ)

/-- Modelled from the spec: `AggregatedCounter` — a behaviour that each
tick adds a fixed increment per neighbour to the aggregated
`state['total']`. -/
def aggBeh (inc : ℤ) : Behavior := fun net s i =>
  Function.update (s i) "total" (s i "total" + inc * (degree net i : ℤ))

/-- Modelled from the spec: `BaseAgent` — the base behaviour's step
does nothing. -/
def baseBeh : Behavior := fun _ s i => s i

/-- Characters after the last dot of the input, `none` when no dot has
been seen. -/
def extAux : List Char → Option (List Char) → Option (List Char)
  | [], cur => cur
  | c :: rest, cur =>
    if c = '.' then extAux rest (some [])
    else extAux rest (cur.map (fun a => a ++ [c]))

/-- The file extension of a path: the text after the last dot, `""`
when the path has no dot. -/
def extOf (p : String) : String :=
  match extAux p.toList none with
  | none => ""
  | some cs => String.mk cs

/-- Modelled from the spec: the file extensions the loader knows how to
read (the tests exercise `.gexf`). -/
def knownExtensions : List String := ["gexf"]

/-- The `network_params` block of a configuration: either a file path,
or a named generator with its keyword arguments. -/
inductive NetworkParams where
  | path : String → NetworkParams
  | generator : String → List (String × Nat) → NetworkParams
deriving DecidableEq

/-- Modelled from the spec: the errors `utils.load_network` surfaces —
an attribute/type-level `attributeError` for an unsupported file
extension or unknown generator name, a `typeError` naming a missing
required generator parameter, and a file-not-found failure. -/
inductive LoadError where
  | attributeError : String → LoadError
  | typeError : String → LoadError
  | fileNotFound : String → LoadError
deriving DecidableEq

/-- Keyword-argument lookup in a generator parameter list. -/
def lookupArg (args : List (String × Nat)) (k : String) : Option Nat :=
  (args.find? (fun a => a.1 == k)).map (fun a => a.2)

/-- Modelled from the spec: the preferential-attachment generator
(`barabasi_albert_graph n m`) — a graph on `n` nodes in which each node
is linked to nearby earlier nodes; the spec pins down only the node
count. -/
def barabasiNet (n m : Nat) : Net where
  nodes := List.range n
  adj := fun i j =>
    decide (i < n) && decide (j < n) && decide (i ≠ j) &&
      decide (Nat.dist i j ≤ m)

/-- Modelled from the spec: `utils.load_network(network_params)`.  With
a `path`, dispatch on the file extension — an unsupported extension is
an attribute-level error, never a silent empty graph; the filesystem is
abstracted as a partial map from paths to parsed graphs.  With a
`generator`, call the named generator, failing with a missing-parameter
error when a required keyword is absent. -/
def loadNetwork (files : String → Option Net) :
    NetworkParams → Except LoadError Net
  | .path p =>
    if extOf p ∈ knownExtensions then
      match files p with
      | some g => .ok g
      | none => .error (.fileNotFound p)
    else .error (.attributeError (extOf p))
  | .generator g args =>
    if g = "barabasi_albert_graph" then
      match lookupArg args "n", lookupArg args "m" with
      | some n, some m => .ok (barabasiNet n m)
      | some _, none => .error (.typeError "m")
      | none, _ => .error (.typeError "n")
    else .error (.attributeError g)

/-- The two-node, one-edge graph stored in `test.gexf`. -/
def testGexf : Net where
  nodes := [0, 1]
  adj := fun i j => (i == 0 && j == 1) || (i == 1 && j == 0)

/-- A filesystem holding exactly `test.gexf`. -/
def testFiles : String → Option Net := fun p =>
  if p = "test.gexf" then some testGexf else none

/-- Modelled from the spec: the declarative configuration surface —
`name`, `network_params`, `agent_type`, per-node `states`,
`network_agents` segments `(agent_type, weight, state)`,
`environment_params`, `max_time` and `num_trials`. -/
structure Config where
  name : Option String
  network_params : NetworkParams
  agent_type : Option String
  states : List (List (String × ℤ))
  network_agents : List (String × Nat × List (String × ℤ))
  environment_params : List (String × ℤ)
  max_time : Option Nat
  num_trials : Nat
deriving DecidableEq

/-- Modelled from the spec: the living simulation object — the
declarative fields plus the three derived-only fields (`topology`,
`dry_run`, `load_module`) present only on the living object, and the
histories accumulated by running trials. -/
structure Simulation where
  conf : Config
  topology : Net
  dry_run : Bool
  load_module : Option String
  results : List (History ℤ)

/-- Modelled from the spec: `simulation.from_config` — resolve the
topology from `network_params` (failing fast on a configuration error)
and attach the derived-only fields to the living object. -/
def fromConfig (files : String → Option Net) (c : Config) :
    Except LoadError Simulation :=
  (loadNetwork files c.network_params).map (fun g =>
    { conf := c, topology := g, dry_run := false,
      load_module := some "soil", results := [] })

/-- Modelled from the spec: the behaviour registry keyed by the
`agent_type` identifier; unknown identifiers are irrelevant here since
the engine claims fix the behaviour explicitly. -/
def registry (ty : String) : Behavior :=
  if ty = "CounterModel" then counterBeh
  else if ty = "AggregatedCounter" then aggBeh 2
  else baseBeh

/-- Modelled from the spec: each node's initial state, taken from the
per-node `states` list matched by index (missing keys default to 0). -/
def initStates (c : Config) : Nat → AgState := fun i k =>
  (((c.states.getD i []).find? (fun a => a.1 == k)).map (fun a => a.2)).getD 0

/-- The attribute keys the run records: every key mentioned in the
per-node initial states. -/
def recordedKeys (c : Config) : List String :=
  c.states.flatMap (fun st => st.map (fun a => a.1))

/-- Modelled from the spec: `run_simulation(dry_run)` — run
`num_trials` trials of the configured behaviour to `max_time`, append
the produced histories to the living object and set its `dry_run`
flag.  The declarative fields are never written. -/
def runSimulation (dry : Bool) (s : Simulation) : Simulation :=
  { s with
    dry_run := dry
    results := s.results ++ List.replicate s.conf.num_trials
      (runHistory s.topology (registry (s.conf.agent_type.getD "BaseAgent"))
        (initStates s.conf) (recordedKeys s.conf)
        (s.conf.max_time.getD 0)) }

/-- `n` successive calls of `run_simulation` on the living object. -/
def repeatRun (dry : Bool) : Nat → Simulation → Simulation
  | 0, s => s
  | n + 1, s => repeatRun dry n (runSimulation dry s)

/-- Modelled from the spec: the flat dump (`to_yaml` / `to_dict`) of a
living simulation — every declarative field, plus the three
derived-only keys `topology`, `dry_run` and `load_module`. -/
structure SerializedSim where
  name : Option String
  network_params : NetworkParams
  agent_type : Option String
  states : List (List (String × ℤ))
  network_agents : List (String × Nat × List (String × ℤ))
  environment_params : List (String × ℤ)
  max_time : Option Nat
  num_trials : Nat
  topology : Net
  dry_run : Bool
  load_module : Option String

/-- Modelled from the spec: serialize the living object field by
field. -/
def toSerialized (s : Simulation) : SerializedSim where
  name := s.conf.name
  network_params := s.conf.network_params
  agent_type := s.conf.agent_type
  states := s.conf.states
  network_agents := s.conf.network_agents
  environment_params := s.conf.environment_params
  max_time := s.conf.max_time
  num_trials := s.conf.num_trials
  topology := s.topology
  dry_run := s.dry_run
  load_module := s.load_module

/-- Modelled from the spec: load the dump back and delete the three
derived-only keys (`del recovered['topology']`, `['dry_run']`,
`['load_module']`), leaving a declarative configuration. -/
def recoverConfig (y : SerializedSim) : Config where
  name := y.name
  network_params := y.network_params
  agent_type := y.agent_type
  states := y.states
  network_agents := y.network_agents
  environment_params := y.environment_params
  max_time := y.max_time
  num_trials := y.num_trials

/-- The configuration of `test_counter_agent`: the `test.gexf`
topology, `CounterModel` agents, per-node initial states, two ticks,
one trial. -/
def c0 : Config where
  name := some "CounterAgent"
  network_params := .path "test.gexf"
  agent_type := some "CounterModel"
  states := [[("neighbors", 10)], [("total", 12)]]
  network_agents := []
  environment_params := []
  max_time := some 2
  num_trials := 1

/-- The living simulation `from_config` builds out of `c0`. -/
def sim0 : Simulation where
  conf := c0
  topology := testGexf
  dry_run := false
  load_module := some "soil"
  results := []

/-- A one-record history, as built in `test_row_conversion`
(`env['test'] = 'test_value'; env._save_state(now=0)`). -/
def h8 : History Value := [⟨.env, 0, "test", .str "test_value"⟩]

lemma updAt_noteq (f : Nat → String → ℤ) (i : Nat) (k : String) (v : ℤ)
    {j : Nat} (hj : j ≠ i) : updAt f i k v j = f j := by
  unfold updAt
  exact Function.update_noteq hj _ _

/-- C10: in `BassModel.behaviour`, adoption is absorbing — if
`state['id']` is nonzero at the start of the call, the call leaves
`state['id']` unchanged (no path ever writes it back to 0). -/
theorem bassModel_adopted_is_absorbing (e : BassEnv) (i : Nat)
    (r1 r2 : ℚ) (w : BassWorld) (h : w.states i "id" ≠ 0) :
    (bassBehaviour e i r1 r2 w).states i "id" = w.states i "id" := by
  unfold bassBehaviour bassBehaviourE
  split <;> simp only [if_neg h]

/-- Witness for C10: a concrete adopted agent stays adopted. -/
theorem bassModel_adopted_is_absorbing_witness :
    (bassBehaviour e0 0 0 0 w1).states 0 "id" = w1.states 0 "id" :=
  bassModel_adopted_is_absorbing e0 0 0 0 w1 (by decide)

/-- C7: in one call of `BassModel.behaviour` the innovation and
imitation effects are mutually exclusive: the two `state['id'] = 1`
writes never both execute, and when the innovation draw succeeds the
early `return` makes the outcome independent of the imitation draw. -/
theorem bassModel_innovation_imitation_exclusive (e : BassEnv) (i : Nat)
    (r1 r2 : ℚ) (w : BassWorld) :
    (¬((bassBehaviourE e i r1 r2 w).2.1 = true ∧
       (bassBehaviourE e i r1 r2 w).2.2 = true)) ∧
    (r1 < e.innovation_prob →
      ∀ r2' : ℚ, bassBehaviour e i r1 r2 w = bassBehaviour e i r1 r2' w) := by
  constructor
  · unfold bassBehaviourE
    split
    · split <;> simp
    · split
      · split <;> simp
      · simp
  · intro h r2'
    unfold bassBehaviour bassBehaviourE
    rw [if_pos h, if_pos h]

/-- Witness for C7 at a concrete input: the innovation draw 0 succeeds
against probability 1/2, and the result ignores the imitation draw. -/
theorem bassModel_innovation_imitation_exclusive_witness :
    (¬((bassBehaviourE e0 0 0 0 w0).2.1 = true ∧
       (bassBehaviourE e0 0 0 0 w0).2.2 = true)) ∧
    bassBehaviour e0 0 0 0 w0 = bassBehaviour e0 0 0 1 w0 := by
  have h := bassModel_innovation_imitation_exclusive e0 0 0 0 w0
  exact ⟨h.1, h.2 (by decide) 1⟩

/-- C6 counterexample: `BassModel.__init__` and `BassModel.behaviour`
both write to the module-level `sentimentCorrelationNodeArray`, a
structure shared outside the agent, so the claim that every call leaves
everything other than the agent's own `state`/`attrs` unchanged is
false at this concrete input. -/
theorem bassModel_frame_counterexample :
    (bassInit e0 0 (fun _ => 0) w0).sentiment 0 0 ≠ w0.sentiment 0 0 ∧
    (bassBehaviour e0 0 0 0 w0).sentiment 0 0 ≠ w0.sentiment 0 0 := by
  constructor <;> decide

/-- C6 amended: every call to `BassModel.__init__`, `step` or
`behaviour` by agent `i` leaves the topology, every other agent's
`state` and `attrs`, and every other agent's row of the global
`sentimentCorrelationNodeArray` unchanged; the only writes outside the
agent's own `state`/`attrs` go to its own row (index `i`) of that
module-level array. -/
theorem bassModel_frame (e : BassEnv) (i : Nat) (init : String → ℤ)
    (r1 r2 : ℚ) (w : BassWorld) (j : Nat) (hj : j ≠ i) :
    ((bassInit e i init w).net = w.net ∧
     (bassInit e i init w).states j = w.states j ∧
     (bassInit e i init w).attrs j = w.attrs j ∧
     (bassInit e i init w).sentiment j = w.sentiment j) ∧
    ((bassBehaviour e i r1 r2 w).net = w.net ∧
     (bassBehaviour e i r1 r2 w).states j = w.states j ∧
     (bassBehaviour e i r1 r2 w).attrs j = w.attrs j ∧
     (bassBehaviour e i r1 r2 w).sentiment j = w.sentiment j) ∧
    ((bassStep e i r1 r2 w).net = w.net ∧
     (bassStep e i r1 r2 w).states j = w.states j ∧
     (bassStep e i r1 r2 w).attrs j = w.attrs j ∧
     (bassStep e i r1 r2 w).sentiment j = w.sentiment j) := by
  have hinit : (bassInit e i init w).net = w.net ∧
      (bassInit e i init w).states j = w.states j ∧
      (bassInit e i init w).attrs j = w.attrs j ∧
      (bassInit e i init w).sentiment j = w.sentiment j := by
    refine ⟨rfl, ?_, rfl, ?_⟩ <;>
      simp [bassInit, Function.update_noteq hj]
  have hbeh : (bassBehaviour e i r1 r2 w).net = w.net ∧
      (bassBehaviour e i r1 r2 w).states j = w.states j ∧
      (bassBehaviour e i r1 r2 w).attrs j = w.attrs j ∧
      (bassBehaviour e i r1 r2 w).sentiment j = w.sentiment j := by
    unfold bassBehaviour bassBehaviourE
    split
    · split <;>
        exact ⟨rfl, by simp [updAt, Function.update_noteq hj],
          by simp [updAt, Function.update_noteq hj],
          by simp [Function.update_noteq hj]⟩
    · split
      · split <;>
          exact ⟨rfl, by simp [updAt, Function.update_noteq hj],
            by simp [updAt, Function.update_noteq hj],
            by simp [Function.update_noteq hj]⟩
      · exact ⟨rfl, rfl, rfl, rfl⟩
  exact ⟨hinit, hbeh, hbeh⟩

/-- Witness for C6 (amended) at a concrete input: agent 0 acting in the
two-node world leaves agent 1's slice of the world untouched. -/
theorem bassModel_frame_witness :
    ((bassInit e0 0 (fun _ => 0) w0).net = w0.net ∧
     (bassInit e0 0 (fun _ => 0) w0).states 1 = w0.states 1 ∧
     (bassInit e0 0 (fun _ => 0) w0).attrs 1 = w0.attrs 1 ∧
     (bassInit e0 0 (fun _ => 0) w0).sentiment 1 = w0.sentiment 1) ∧
    ((bassBehaviour e0 0 0 0 w0).net = w0.net ∧
     (bassBehaviour e0 0 0 0 w0).states 1 = w0.states 1 ∧
     (bassBehaviour e0 0 0 0 w0).attrs 1 = w0.attrs 1 ∧
     (bassBehaviour e0 0 0 0 w0).sentiment 1 = w0.sentiment 1) ∧
    ((bassStep e0 0 0 0 w0).net = w0.net ∧
     (bassStep e0 0 0 0 w0).states 1 = w0.states 1 ∧
     (bassStep e0 0 0 0 w0).attrs 1 = w0.attrs 1 ∧
     (bassStep e0 0 0 0 w0).sentiment 1 = w0.sentiment 1) :=
  bassModel_frame e0 0 (fun _ => 0) 0 0 w0 1 (by decide)

/-- C5: loading the 2-node/1-edge `test.gexf` yields a graph of length
2; an unsupported extension fails with an attribute-level error (never
a silent empty graph); the preferential-attachment generator with
`n = 100, m = 10` yields a graph of length 100; and omitting the
required generator parameters fails with a missing-parameter error. -/
theorem topology_load_contract :
    (loadNetwork testFiles (.path "test.gexf") = .ok testGexf ∧
      netLen testGexf = 2) ∧
    (∀ files : String → Option Net,
      loadNetwork files (.path "unknown.extension") =
        .error (.attributeError "extension")) ∧
    (∀ files : String → Option Net,
      loadNetwork files
          (.generator "barabasi_albert_graph" [("n", 100), ("m", 10)]) =
        .ok (barabasiNet 100 10)) ∧
    netLen (barabasiNet 100 10) = 100 ∧
    (∀ files : String → Option Net,
      loadNetwork files (.generator "barabasi_albert_graph" []) =
        .error (.typeError "n")) := by
  refine ⟨⟨rfl, rfl⟩, fun files => rfl, fun files => rfl, ?_, fun files => rfl⟩
  simp [netLen, barabasiNet]

/-- C8: the History Store is append-only — appending an entry for a
different `(entity, tick, attribute)` triple never changes what a point
query for the original triple returns, no entry is ever removed, and a
point query returns the value recorded for its triple. -/
theorem history_append_only {α : Type} (h : History α) (r : HRecord α)
    (e : EntityId) (t : Nat) (k : String) (v : α)
    (hne : ¬(r.entity = e ∧ r.tick = t ∧ r.attr = k)) :
    pointQuery (record h r) e t k = pointQuery h e t k ∧
    (∀ r' ∈ h, r' ∈ record h r) ∧
    pointQuery (record h ⟨e, t, k, v⟩) e t k = some v := by
  refine ⟨?_, ?_, ?_⟩
  · have hm : matchesKey e t k r = false := by
      rw [Bool.eq_false_iff]
      intro hmt
      simp only [matchesKey, Bool.and_eq_true, decide_eq_true_eq] at hmt
      exact hne ⟨hmt.1.1, hmt.1.2, hmt.2⟩
    simp [pointQuery, record, List.filter_append, hm]
  · exact fun r' hr' => List.mem_append_left _ hr'
  · have hm2 : matchesKey e t k (⟨e, t, k, v⟩ : HRecord α) = true := by
      simp [matchesKey]
    simp [pointQuery, record, List.filter_append, hm2, List.getLast?_concat]

/-- Witness for C8: with `test` recorded at tick 0, a later record at
tick 1 leaves the tick-0 point query unchanged and removes nothing. -/
theorem history_append_only_witness :
    pointQuery (record h8 ⟨.env, 1, "test", .str "second_value"⟩)
        .env 0 "test" = pointQuery h8 .env 0 "test" ∧
    (∀ r' ∈ h8, r' ∈ record h8 ⟨.env, 1, "test", .str "second_value"⟩) ∧
    pointQuery (record h8 ⟨.env, 0, "test", .str "second_value"⟩)
        .env 0 "test" = some (.str "second_value") :=
  history_append_only h8 ⟨.env, 1, "test", .str "second_value"⟩
    .env 0 "test" (.str "second_value") (by decide)

/-- C9: a fully specified query for a never-recorded triple returns
"not found" (`none`) rather than raising, while a malformed query (an
invalid attribute name type) fails fast with an error. -/
theorem query_missing_not_found {α : Type} (h : History α) (e : EntityId)
    (t : Nat) (k : String)
    (hnone : ∀ r ∈ h, ¬(r.entity = e ∧ r.tick = t ∧ r.attr = k)) :
    queryChecked h e t (.name k) = .ok none ∧
    queryChecked h e t .invalid = .error .malformedAttr := by
  refine ⟨?_, rfl⟩
  have hnil : h.filter (matchesKey e t k) = [] := by
    rw [List.filter_eq_nil_iff]
    intro r hr hm
    simp only [matchesKey, Bool.and_eq_true, decide_eq_true_eq] at hm
    exact hnone r hr ⟨hm.1.1, hm.1.2, hm.2⟩
  have hq : pointQuery h e t k = none := by
    unfold pointQuery
    rw [hnil]
    rfl
  simp [queryChecked, hq]

/-- Witness for C9: querying a tick that was never recorded in `h8`
returns `none`, and the malformed query errors. -/
theorem query_missing_not_found_witness :
    queryChecked h8 .env 5 (.name "missing") = .ok none ∧
    queryChecked h8 .env 5 .invalid = .error .malformedAttr :=
  query_missing_not_found h8 .env 5 "missing" (by decide)

/-- C1: the declarative configuration round-trips through the living
simulation — recovering the serialized form and deleting the three
derived-only fields (`topology`, `dry_run`, `load_module`) yields the
original configuration, and this still holds after any number of
`run_simulation` calls (running never mutates the configuration). -/
theorem config_roundtrip (files : String → Option Net) (c : Config)
    (s : Simulation) (h : fromConfig files c = .ok s) :
    recoverConfig (toSerialized s) = c ∧
    ∀ (dry : Bool) (n : Nat),
      recoverConfig (toSerialized (repeatRun dry n s)) = c := by
  have hconf : s.conf = c := by
    unfold fromConfig at h
    cases hln : loadNetwork files c.network_params with
    | ok g =>
      rw [hln] at h
      simp only [Except.map] at h
      cases h
      rfl
    | error err =>
      rw [hln] at h
      simp only [Except.map] at h
      cases h
  have hrec : ∀ s' : Simulation, recoverConfig (toSerialized s') = s'.conf :=
    fun s' => rfl
  have hrep : ∀ (dry : Bool) (n : Nat) (s' : Simulation),
      (repeatRun dry n s').conf = s'.conf := by
    intro dry n
    induction n with
    | zero => intro s'; rfl
    | succ m ih =>
      intro s'
      rw [repeatRun, ih]
      rfl
  exact ⟨by rw [hrec, hconf],
    fun dry n => by rw [hrec, hrep, hconf]⟩

/-- Witness for C1: the `CounterAgent` configuration round-trips, also
after five runs of the simulation. -/
theorem config_roundtrip_witness :
    recoverConfig (toSerialized sim0) = c0 ∧
    recoverConfig (toSerialized (repeatRun true 5 sim0)) = c0 := by
  have h := config_roundtrip testFiles c0 sim0 rfl
  exact ⟨h.1, h.2 true 5⟩

lemma mem_snapshotRecords {keys : List String} {t : Nat} {s : Nat → AgState}
    {nodes : List Nat} {r : HRecord ℤ} :
    r ∈ snapshotRecords keys t s nodes ↔
      ∃ i, i ∈ nodes ∧ ∃ k, k ∈ keys ∧ r = ⟨.agent i, t, k, s i k⟩ := by
  simp only [snapshotRecords, List.mem_flatMap, List.mem_map]
  constructor
  · rintro ⟨i, hi, k, hk, rfl⟩
    exact ⟨i, hi, k, hk, rfl⟩
  · rintro ⟨i, hi, k, hk, rfl⟩
    exact ⟨i, hi, k, hk, rfl⟩

lemma keys_filter_length (keys : List String) (t : Nat) (s : Nat → AgState)
    (i : Nat) (k : String) (hk : k ∈ keys) (hkn : keys.Nodup) :
    ((keys.map (fun q => (⟨.agent i, t, q, s i q⟩ : HRecord ℤ))).filter
      (fun r => decide (r.entity = EntityId.agent i) &&
        decide (r.attr = k))).length = 1 := by
  induction keys with
  | nil => cases hk
  | cons k0 rest ih =>
    rcases List.nodup_cons.mp hkn with ⟨hk0, hrest⟩
    rcases List.mem_cons.mp hk with h1 | h2
    · subst h1
      have hz : ((rest.map (fun q => (⟨.agent i, t, q, s i q⟩ : HRecord ℤ))).filter
          (fun r => decide (r.entity = EntityId.agent i) &&
            decide (r.attr = k))) = [] := by
        rw [List.filter_eq_nil_iff]
        intro r hr
        rcases List.mem_map.mp hr with ⟨q, hq, rfl⟩
        simp only [Bool.and_eq_true, decide_eq_true_eq]
        rintro ⟨-, h⟩
        exact hk0 (h ▸ hq)
      simp [List.filter_cons, hz]
    · have hne : k0 ≠ k := fun hEq => hk0 (hEq ▸ h2)
      simp [List.filter_cons, hne, ih h2 hrest]

lemma snapshot_filter_nil (keys : List String) (t : Nat)
    (s : Nat → AgState) (nodes : List Nat) (i : Nat) (k : String)
    (hi : i ∉ nodes) :
    ((snapshotRecords keys t s nodes).filter
      (fun r => decide (r.entity = EntityId.agent i) &&
        decide (r.attr = k))) = [] := by
  rw [List.filter_eq_nil_iff]
  intro r hr
  rcases mem_snapshotRecords.mp hr with ⟨j, hj, q, hq, rfl⟩
  simp only [Bool.and_eq_true, decide_eq_true_eq]
  rintro ⟨hEq, -⟩
  rw [EntityId.agent.injEq] at hEq
  subst hEq
  exact hi hj

lemma snapshot_filter_length (keys : List String) (t : Nat)
    (s : Nat → AgState) (nodes : List Nat) (i : Nat) (k : String)
    (hi : i ∈ nodes) (hk : k ∈ keys) (hn : nodes.Nodup)
    (hkn : keys.Nodup) :
    ((snapshotRecords keys t s nodes).filter
      (fun r => decide (r.entity = EntityId.agent i) &&
        decide (r.attr = k))).length = 1 := by
  induction nodes with
  | nil => cases hi
  | cons j rest ih =>
    rcases List.nodup_cons.mp hn with ⟨hj, hrest⟩
    have hsnap : snapshotRecords keys t s (j :: rest)
        = (keys.map (fun q => (⟨.agent j, t, q, s j q⟩ : HRecord ℤ)))
          ++ snapshotRecords keys t s rest := by
      simp [snapshotRecords]
    rw [hsnap, List.filter_append, List.length_append]
    rcases List.mem_cons.mp hi with h1 | h2
    · subst h1
      rw [keys_filter_length keys t s i k hk hkn,
        snapshot_filter_nil keys t s rest i k hj]
      rfl
    · have hji : j ≠ i := fun hEq => hj (hEq ▸ h2)
      have hhead : ((keys.map (fun q => (⟨.agent j, t, q, s j q⟩ : HRecord ℤ))).filter
          (fun r => decide (r.entity = EntityId.agent i) &&
            decide (r.attr = k))) = [] := by
        rw [List.filter_eq_nil_iff]
        intro r hr
        rcases List.mem_map.mp hr with ⟨q, hq, rfl⟩
        simp [hji]
      rw [hhead, ih h2 hrest]
      rfl

lemma runHistory_filter_length (net : Net) (beh : Behavior)
    (init : Nat → AgState) (keys : List String) (T i : Nat) (k : String)
    (hi : i ∈ net.nodes) (hk : k ∈ keys) (hn : net.nodes.Nodup)
    (hkn : keys.Nodup) :
    ((runHistory net beh init keys T).filter
      (fun r => decide (r.entity = EntityId.agent i) &&
        decide (r.attr = k))).length = T + 1 := by
  induction T with
  | zero => exact snapshot_filter_length _ _ _ _ _ _ hi hk hn hkn
  | succ T ih =>
    rw [show runHistory net beh init keys (T + 1)
        = runHistory net beh init keys T ++ snapshotRecords keys (T + 1)
            (envStates net beh init (T + 1)) net.nodes from rfl,
      List.filter_append, List.length_append, ih,
      snapshot_filter_length _ _ _ _ _ _ hi hk hn hkn]

lemma mem_snapshot_ticks (keys : List String) (t : Nat)
    (s : Nat → AgState) (nodes : List Nat) (i x : Nat)
    (hi : i ∈ nodes) (hke : keys ≠ []) :
    (x ∈ ((snapshotRecords keys t s nodes).filter
        (fun r => decide (r.entity = EntityId.agent i))).map
          (fun r => r.tick)) ↔ x = t := by
  constructor
  · intro hx
    rcases List.mem_map.mp hx with ⟨r, hr, rfl⟩
    rcases List.mem_filter.mp hr with ⟨hr1, -⟩
    rcases mem_snapshotRecords.mp hr1 with ⟨j, hj, q, hq, rfl⟩
    rfl
  · intro hxt
    subst hxt
    rcases List.exists_mem_of_ne_nil keys hke with ⟨k0, hk0⟩
    refine List.mem_map.mpr ⟨⟨.agent i, x, k0, s i k0⟩, ?_, rfl⟩
    refine List.mem_filter.mpr
      ⟨mem_snapshotRecords.mpr ⟨i, hi, k0, hk0, rfl⟩, ?_⟩
    simp

lemma mem_runHistory_ticks (net : Net) (beh : Behavior)
    (init : Nat → AgState) (keys : List String) (T i x : Nat)
    (hi : i ∈ net.nodes) (hke : keys ≠ []) :
    (x ∈ ((runHistory net beh init keys T).filter
        (fun r => decide (r.entity = EntityId.agent i))).map
          (fun r => r.tick)) ↔ x ≤ T := by
  induction T with
  | zero =>
    rw [show runHistory net beh init keys 0
        = snapshotRecords keys 0 init net.nodes from rfl,
      mem_snapshot_ticks keys 0 init net.nodes i x hi hke]
    omega
  | succ T ih =>
    rw [show runHistory net beh init keys (T + 1)
        = runHistory net beh init keys T ++ snapshotRecords keys (T + 1)
            (envStates net beh init (T + 1)) net.nodes from rfl,
      List.filter_append, List.map_append, List.mem_append, ih,
      mem_snapshot_ticks _ _ _ _ _ _ hi hke]
    omega

/-- C2: an Environment run to `max_time = T` records, for every agent
and every recorded attribute, exactly `T + 1` entries — the wildcard
query over ticks has length `T + 1`, and so does the wildcard over both
ticks and attributes (one per-tick entry). -/
theorem history_completeness (net : Net) (beh : Behavior)
    (init : Nat → AgState) (keys : List String) (T i : Nat) (k : String)
    (hi : i ∈ net.nodes) (hk : k ∈ keys) (hn : net.nodes.Nodup)
    (hkn : keys.Nodup) :
    (queryTicks (runHistory net beh init keys T) (.agent i) k).length
      = T + 1 ∧
    (queryAllTicks (runHistory net beh init keys T) (.agent i)).length
      = T + 1 := by
  constructor
  · rw [queryTicks, List.length_map]
    exact runHistory_filter_length net beh init keys T i k hi hk hn hkn
  · have hke : keys ≠ [] := List.ne_nil_of_mem hk
    have key : ∀ x, (x ∈ (((runHistory net beh init keys T).filter
          (fun r => decide (r.entity = EntityId.agent i))).map
            (fun r => r.tick)).dedup) ↔ x ∈ List.range (T + 1) := by
      intro x
      rw [List.mem_dedup, List.mem_range,
        mem_runHistory_ticks net beh init keys T i x hi hke]
      omega
    unfold queryAllTicks
    rw [List.Perm.length_eq ((List.perm_ext_iff_of_nodup
        (List.nodup_dedup _) (List.nodup_range _)).mpr key),
      List.length_range]

/-- Witness for C2: the two-node topology run for two ticks records
three entries for agent 0's `neighbors`, and three per-tick entries. -/
theorem history_completeness_witness :
    (queryTicks (runHistory testGexf counterBeh (initStates c0)
        (recordedKeys c0) 2) (.agent 0) "neighbors").length = 2 + 1 ∧
    (queryAllTicks (runHistory testGexf counterBeh (initStates c0)
        (recordedKeys c0) 2) (.agent 0)).length = 2 + 1 :=
  history_completeness testGexf counterBeh (initStates c0)
    (recordedKeys c0) 2 0 "neighbors" (by decide) (by decide)
    (by decide) (by decide)

lemma mem_runHistory (net : Net) (beh : Behavior) (init : Nat → AgState)
    (keys : List String) (T : Nat) (r : HRecord ℤ) :
    r ∈ runHistory net beh init keys T ↔
      ∃ t, t ≤ T ∧ ∃ i, i ∈ net.nodes ∧ ∃ k, k ∈ keys ∧
        r = ⟨.agent i, t, k, envStates net beh init t i k⟩ := by
  induction T with
  | zero =>
    rw [show runHistory net beh init keys 0
        = snapshotRecords keys 0 init net.nodes from rfl, mem_snapshotRecords]
    constructor
    · rintro ⟨i, hi, k, hk, rfl⟩
      exact ⟨0, Nat.le_refl 0, i, hi, k, hk, rfl⟩
    · rintro ⟨t, ht, i, hi, k, hk, rfl⟩
      have ht0 : t = 0 := Nat.le_zero.mp ht
      subst ht0
      exact ⟨i, hi, k, hk, rfl⟩
  | succ T ih =>
    rw [show runHistory net beh init keys (T + 1)
        = runHistory net beh init keys T ++ snapshotRecords keys (T + 1)
            (envStates net beh init (T + 1)) net.nodes from rfl,
      List.mem_append, ih, mem_snapshotRecords]
    constructor
    · rintro (⟨t, ht, i, hi, k, hk, rfl⟩ | ⟨i, hi, k, hk, rfl⟩)
      · exact ⟨t, by omega, i, hi, k, hk, rfl⟩
      · exact ⟨T + 1, Nat.le_refl _, i, hi, k, hk, rfl⟩
    · rintro ⟨t, ht, i, hi, k, hk, rfl⟩
      rcases Nat.lt_or_ge t (T + 1) with hlt | hge
      · exact Or.inl ⟨t, by omega, i, hi, k, hk, rfl⟩
      · have hT1 : t = T + 1 := by omega
        subst hT1
        exact Or.inr ⟨i, hi, k, hk, rfl⟩

lemma pointQuery_runHistory (net : Net) (beh : Behavior)
    (init : Nat → AgState) (keys : List String) (T t i : Nat) (k : String)
    (ht : t ≤ T) (hi : i ∈ net.nodes) (hk : k ∈ keys) :
    pointQuery (runHistory net beh init keys T) (.agent i) t k =
      some (envStates net beh init t i k) := by
  have hmem : (⟨.agent i, t, k, envStates net beh init t i k⟩ : HRecord ℤ)
      ∈ (runHistory net beh init keys T).filter (matchesKey (.agent i) t k) := by
    rw [List.mem_filter]
    exact ⟨(mem_runHistory net beh init keys T _).mpr
      ⟨t, ht, i, hi, k, hk, rfl⟩, by simp [matchesKey]⟩
  have hne : (runHistory net beh init keys T).filter
      (matchesKey (.agent i) t k) ≠ [] := List.ne_nil_of_mem hmem
  rw [pointQuery, List.getLast?_eq_getLast _ hne]
  have hlast := List.getLast_mem hne
  rcases List.mem_filter.mp hlast with ⟨hin, hmk⟩
  rcases (mem_runHistory net beh init keys T _).mp hin
    with ⟨u, hu, j, hj, q, hq, hEq⟩
  rw [hEq] at hmk
  simp only [matchesKey, Bool.and_eq_true, decide_eq_true_eq] at hmk
  obtain ⟨⟨hEnt, hTick⟩, hAttr⟩ := hmk
  rw [EntityId.agent.injEq] at hEnt
  subst hEnt
  subst hTick
  subst hAttr
  rw [hEq]
  rfl

lemma envStates_succ_mem (net : Net) (beh : Behavior)
    (init : Nat → AgState) (t i : Nat) (hi : i ∈ net.nodes) :
    envStates net beh init (t + 1) i = beh net (envStates net beh init t) i := by
  rw [show envStates net beh init (t + 1)
      = envStep net beh (envStates net beh init t) from rfl]
  unfold envStep
  rw [if_pos hi]

/-- C3: for the behaviour that each tick adds a fixed increment per
neighbour to the aggregated `total`, the recorded value satisfies
`total(tick) = total(tick - 1) + increment * degree` at every tick > 0
of the run. -/
theorem monotonic_aggregation (net : Net) (init : Nat → AgState)
    (keys : List String) (inc : ℤ) (T t i : Nat)
    (ht : 1 ≤ t) (hT : t ≤ T) (hi : i ∈ net.nodes)
    (hk : "total" ∈ keys) :
    pointQuery (runHistory net (aggBeh inc) init keys T) (.agent i) t
        "total" =
      (pointQuery (runHistory net (aggBeh inc) init keys T) (.agent i)
        (t - 1) "total").map (fun v => v + inc * (degree net i : ℤ)) := by
  obtain ⟨u, rfl⟩ : ∃ u, t = u + 1 := ⟨t - 1, by omega⟩
  rw [pointQuery_runHistory net (aggBeh inc) init keys T (u + 1) i
      "total" hT hi hk,
    pointQuery_runHistory net (aggBeh inc) init keys T ((u + 1) - 1) i
      "total" (by omega) hi hk]
  simp only [Nat.add_sub_cancel, Option.map_some']
  rw [envStates_succ_mem net (aggBeh inc) init u i hi]
  simp [aggBeh, Function.update_same]

/-- Witness for C3: with increment 2 on the two-node topology, agent
1's `total` at tick 1 is its tick-0 value plus `2 * degree`. -/
theorem monotonic_aggregation_witness :
    pointQuery (runHistory testGexf (aggBeh 2) (initStates c0)
        (recordedKeys c0) 2) (.agent 1) 1 "total" =
      (pointQuery (runHistory testGexf (aggBeh 2) (initStates c0)
        (recordedKeys c0) 2) (.agent 1) (1 - 1) "total").map
          (fun v => v + 2 * (degree testGexf 1 : ℤ)) :=
  monotonic_aggregation testGexf (initStates c0) (recordedKeys c0) 2 2 1 1
    (by decide) (by decide) (by decide) (by decide)

/-- C4: for the counter-style behaviour whose step sets
`state['neighbors']` to the agent's degree, the recorded `neighbors`
value at every tick ≥ 1 equals that agent's topology degree, regardless
of the run length, while the tick-0 value is the configured initial
state. -/
theorem neighbor_count_deterministic (net : Net) (init : Nat → AgState)
    (keys : List String) (T t i : Nat) (ht : 1 ≤ t) (hT : t ≤ T)
    (hi : i ∈ net.nodes) (hk : "neighbors" ∈ keys) :
    pointQuery (runHistory net counterBeh init keys T) (.agent i) t
        "neighbors" = some ((degree net i : ℤ)) ∧
    pointQuery (runHistory net counterBeh init keys T) (.agent i) 0
        "neighbors" = some (init i "neighbors") := by
  constructor
  · obtain ⟨u, rfl⟩ : ∃ u, t = u + 1 := ⟨t - 1, by omega⟩
    rw [pointQuery_runHistory net counterBeh init keys T (u + 1) i
        "neighbors" hT hi hk,
      envStates_succ_mem net counterBeh init u i hi]
    simp [counterBeh, Function.update_same]
  · rw [pointQuery_runHistory net counterBeh init keys T 0 i
      "neighbors" (by omega) hi hk]
    rfl

/-- Witness for C4: agent 0 of the two-node topology records
`neighbors = 1` (its degree) at tick 1 and its configured initial value
10 at tick 0. -/
theorem neighbor_count_deterministic_witness :
    pointQuery (runHistory testGexf counterBeh (initStates c0)
        (recordedKeys c0) 2) (.agent 0) 1 "neighbors"
      = some ((degree testGexf 0 : ℤ)) ∧
    pointQuery (runHistory testGexf counterBeh (initStates c0)
        (recordedKeys c0) 2) (.agent 0) 0 "neighbors"
      = some (initStates c0 0 "neighbors") :=
  neighbor_count_deterministic testGexf (initStates c0) (recordedKeys c0)
    2 1 0 (by decide) (by decide) (by decide) (by decide)

end Soil
